import Mathlib

/-!
Shallow embedding of the autonomous-car control/streaming server
(`raspberry_pi/server/{main.py, tcp_server.py, motor.py, camera.py}`)
and proofs about its command dispatcher, motor driver, video framing,
client registries and camera frame buffer.

Python string primitives (`str.strip`, `str.split('#')`, `str.upper`,
`int(...)`) are modelled executably on `List Char` so that every
definition evaluates inside the kernel.
-/

/-! ## Python string primitives -/

/-- Model of Python `str.upper` for the ASCII range (command verbs and
stream tokens in this protocol are ASCII). -/
def pyUpper (s : String) : String := String.mk (s.data.map Char.toUpper)

/-- Whitespace characters removed by Python `str.strip()` (ASCII subset:
space, tab, newline, carriage return, vertical tab, form feed). -/
def pyIsSpace (c : Char) : Bool :=
  c = ' ' || c = '\t' || c = '\n' || c = '\r' || c = '\x0b' || c = '\x0c'

/-- Model of Python `str.strip()`: drop leading and trailing whitespace. -/
def pyStrip (s : String) : String :=
  String.mk (((s.data.dropWhile pyIsSpace).reverse.dropWhile pyIsSpace).reverse)

/-- Split a character list on a separator, Python `str.split(sep)` style:
no merging of adjacent separators, and the empty string yields `[[]]`.
The result is always non-empty; the `[]` fallback inside the match is
unreachable. -/
def splitOnChar (sep : Char) : List Char → List (List Char)
  | [] => [[]]
  | c :: rest =>
    if c = sep then [] :: splitOnChar sep rest
    else
      match splitOnChar sep rest with
      | [] => [[c]]
      | g :: gs => (c :: g) :: gs

/-- Model of Python `s.split('#')`. -/
def pySplitHash (s : String) : List String :=
  (splitOnChar '#' s.data).map String.mk

/-- Accumulate the decimal value of a digit run, allowing a single `'_'`
between digits as Python `int` does. -/
def pyDigits : List Char → Nat → Option Nat
  | [], acc => some acc
  | '_' :: rest, acc =>
    match rest with
    | [] => none
    | c :: rest2 =>
      if c.isDigit then pyDigits rest2 (acc * 10 + (c.toNat - 48)) else none
  | c :: rest, acc =>
    if c.isDigit then pyDigits rest (acc * 10 + (c.toNat - 48)) else none

/-- An unsigned decimal literal: non-empty, starts with a digit (so no
leading underscore), digits possibly separated by single underscores. -/
def pyIntCore (cs : List Char) : Option Nat :=
  match cs with
  | [] => none
  | c :: _ => if c.isDigit then pyDigits cs 0 else none

/-- Model of Python `int(s)` for base-10 ASCII literals: surrounding
whitespace is stripped, then an optional sign and a decimal literal.
`none` models `int` raising `ValueError`. -/
def pyInt (s : String) : Option Int :=
  match (pyStrip s).data with
  | '-' :: rest => (pyIntCore rest).map (fun n => -(n : Int))
  | '+' :: rest => (pyIntCore rest).map (fun n => (n : Int))
  | cs => (pyIntCore cs).map (fun n => (n : Int))

/-- Evaluate `[int(x) for x in args]`: the values in order, or the
`ValueError` message of the first token that fails to parse.  Python
renders the offending token between apostrophes (written `\x27`). -/
def intParseAll : List String → Except String (List Int)
  | [] => .ok []
  | t :: rest =>
    match pyInt t with
    | none => .error ("invalid literal for int() with base 10: \x27" ++ t ++ "\x27")
    | some v =>
      match intParseAll rest with
      | .error m => .error m
      | .ok vs => .ok (v :: vs)

/-! ## motor.py -/

/-- `MotorController._duty_range` from `motor.py`: clamp a duty value to
`[-4095, 4095]`. -/
def _duty_range (duty : Int) : Int :=
  if duty > 4095 then 4095
  else if duty < -4095 then -4095
  else duty

/-- `MotorController._set_motor` from `motor.py`: the PCA9685
`set_motor_pwm(channel, value)` calls issued for one motor, in order.
The surrounding `initialized` guard is applied by `set_motor_speeds`
below, which is the only caller in this development. -/
def _set_motor (motor_index : Nat) (duty0 : Int) : List (Nat × Int) :=
  let duty := _duty_range duty0
  if motor_index = 0 then
    if duty > 0 then [(0, 0), (1, duty)]
    else if duty < 0 then [(1, 0), (0, |duty|)]
    else [(0, 4095), (1, 4095)]
  else if motor_index = 1 then
    if duty > 0 then [(3, 0), (2, duty)]
    else if duty < 0 then [(2, 0), (3, |duty|)]
    else [(2, 4095), (3, 4095)]
  else if motor_index = 2 then
    if duty > 0 then [(6, 0), (7, duty)]
    else if duty < 0 then [(7, 0), (6, |duty|)]
    else [(6, 4095), (7, 4095)]
  else if motor_index = 3 then
    if duty > 0 then [(4, 0), (5, duty)]
    else if duty < 0 then [(5, 0), (4, |duty|)]
    else [(4, 4095), (5, 4095)]
  else []

/-- `MotorController.set_motor_speeds` from `motor.py`: the sequence of
PWM calls it performs.  When the controller failed to initialize the
body returns before any PWM call. -/
def set_motor_speeds (initialized : Bool) (left_upper left_lower right_upper right_lower : Int) :
    List (Nat × Int) :=
  if initialized = false then []
  else
    _set_motor 0 (_duty_range left_upper) ++ _set_motor 1 (_duty_range left_lower) ++
    _set_motor 2 (_duty_range right_upper) ++ _set_motor 3 (_duty_range right_lower)

/-! ## main.py : dispatcher state and handlers -/

/-- Observable state of `LaneFollowingCar` (from `main.py`) plus two
instrumentation logs: `motorCalls` records each invocation of
`set_motor_speeds` with the arguments it received, and `pwmCalls`
records the PCA9685 calls issued; `videoThreadsStarted` counts the
broadcast threads spawned by `start_video_streaming`. -/
structure CarState where
  running : Bool
  streaming : Bool
  videoClients : Bool
  commandClients : Bool
  motorInitialized : Bool
  motorCalls : List (Int × Int × Int × Int)
  pwmCalls : List (Nat × Int)
  videoThreadsStarted : Nat
  deriving Repr, DecidableEq

/-- State right after startup: running, not streaming, no clients,
motor controller initialized, nothing logged. -/
def initState : CarState :=
  { running := true, streaming := false, videoClients := false, commandClients := false,
    motorInitialized := true, motorCalls := [], pwmCalls := [], videoThreadsStarted := 0 }

/-- A call of `self.motor_controller.set_motor_speeds(a, b, c, d)`:
log the received arguments and the PWM calls the driver issues. -/
def invoke_set_motor_speeds (st : CarState) (a b c d : Int) : CarState :=
  { st with
    motorCalls := st.motorCalls ++ [(a, b, c, d)],
    pwmCalls := st.pwmCalls ++ set_motor_speeds st.motorInitialized a b c d }

/-- `LaneFollowingCar.handle_motor_command` from `main.py`.  The final
fallback arm models the `IndexError` that `speeds[k]` would raise if the
parsed list were shorter than 4; it is unreachable because
`intParseAll` preserves length. -/
def handle_motor_command (st : CarState) (args : List String) : CarState × String :=
  if args.length ≠ 4 then
    (st, "ERROR#Invalid motor command format. Expected 4 speed values.")
  else
    match intParseAll args with
    | .error msg => (st, "ERROR#" ++ msg)
    | .ok speeds =>
      match speeds with
      | [a, b, c, d] => (invoke_set_motor_speeds st a b c d, "OK#MOTOR")
      | _ => (st, "ERROR#list index out of range")

/-- `LaneFollowingCar.handle_stop_command` from `main.py`:
`motor_controller.stop()` is `set_motor_speeds(0, 0, 0, 0)`. -/
def handle_stop_command (st : CarState) (_args : List String) : CarState × String :=
  (invoke_set_motor_speeds st 0 0 0 0, "OK#STOP")

/-- `LaneFollowingCar.start_video_streaming` from `main.py`: guarded by
the `streaming` flag; sets it and spawns one broadcast thread (counted
here; the camera start call is part of the same branch). -/
def start_video_streaming (st : CarState) : CarState :=
  if st.streaming then st
  else { st with streaming := true, videoThreadsStarted := st.videoThreadsStarted + 1 }

/-- `LaneFollowingCar.stop_video_streaming` from `main.py`: guarded by
the `streaming` flag; clears it. -/
def stop_video_streaming (st : CarState) : CarState :=
  if st.streaming = false then st
  else { st with streaming := false }

/-- `LaneFollowingCar.handle_stream_command` from `main.py`. -/
def handle_stream_command (st : CarState) (args : List String) : CarState × String :=
  match args with
  | [] => (st, "ERROR#Missing streaming command (START/STOP)")
  | arg0 :: _ =>
    let action := pyUpper arg0
    if action = "START" then
      if st.streaming = false then (start_video_streaming st, "OK#STREAM#STARTED")
      else (st, "OK#STREAM#ALREADY_RUNNING")
    else if action = "STOP" then
      if st.streaming then (stop_video_streaming st, "OK#STREAM#STOPPED")
      else (st, "OK#STREAM#NOT_RUNNING")
    else (st, "ERROR#Unknown streaming command: " ++ action)

/-- Python `json.dumps` on a `bool`. -/
def pyJsonBool (b : Bool) : String := if b then "true" else "false"

/-- `json.dumps` of the status dict built by `handle_status_command`,
with Python dict insertion order and default separators. -/
def statusJson (running streaming video_clients command_clients : Bool) : String :=
  "\x7b\"running\": " ++ pyJsonBool running ++
  ", \"streaming\": " ++ pyJsonBool streaming ++
  ", \"video_clients\": " ++ pyJsonBool video_clients ++
  ", \"command_clients\": " ++ pyJsonBool command_clients ++ "\x7d"

/-- `LaneFollowingCar.handle_status_command` from `main.py`:
`video_clients` / `command_clients` report `has_video_clients()` /
`has_command_clients()` of the TCP server (`len(...) > 0`). -/
def handle_status_command (st : CarState) (_args : List String) : CarState × String :=
  (st, "STATUS#" ++ statusJson st.running st.streaming st.videoClients st.commandClients)

/-- The verb computed by `parse_and_execute_command`:
`command_text.strip().split('#')[0].upper()`.  `split` never returns an
empty list, so indexing with `headD` is exact and the source's
`if not parts: return` guard is unreachable. -/
def sourceVerb (text : String) : String :=
  pyUpper ((pySplitHash (pyStrip text)).headD "")

/-- `LaneFollowingCar.parse_and_execute_command` from `main.py`: strip,
split on `'#'`, uppercase the first token, look the verb up in the
handler table `{MOTOR, STOP, STREAM, STATUS}`; a handler's response is
sent back when truthy (non-empty), an unknown verb is answered with
`ERROR#Unknown command: <verb>`.  `none` models "nothing sent". -/
def parse_and_execute_command (st : CarState) (command_text : String) : CarState × Option String :=
  let command := sourceVerb command_text
  let args := (pySplitHash (pyStrip command_text)).tail
  if command = "MOTOR" then
    let r := handle_motor_command st args
    (r.1, if r.2 = "" then none else some r.2)
  else if command = "STOP" then
    let r := handle_stop_command st args
    (r.1, if r.2 = "" then none else some r.2)
  else if command = "STREAM" then
    let r := handle_stream_command st args
    (r.1, if r.2 = "" then none else some r.2)
  else if command = "STATUS" then
    let r := handle_status_command st args
    (r.1, if r.2 = "" then none else some r.2)
  else
    (st, some ("ERROR#Unknown command: " ++ command))

/-- The verb exactly as the specification sentence describes it: split
the command text on `'#'` and uppercase the first token, with no
whitespace stripping.  Modelled from the spec for comparison with
`sourceVerb`. -/
def specVerb (text : String) : String :=
  pyUpper ((pySplitHash text).headD "")

/-! ## tcp_server.py : video framing -/

/-- `struct.pack('<L', n)`: the 4-byte little-endian unsigned encoding,
defined for `n < 2^32` (larger values raise in Python). -/
def le32 (n : Nat) : List Nat :=
  [n % 256, n / 256 % 256, n / 65536 % 256, n / 16777216 % 256]

/-- `TCPServer.send_video_data` from `tcp_server.py`, restricted to one
connected video client: the two back-to-back `sendall` calls it issues,
in order — first `struct.pack('<L', len(frame_data))`, then the frame
payload itself.  Bytes are modelled as `Nat` values below 256. -/
def send_video_data_writes (frame_data : List Nat) : List (List Nat) :=
  [le32 frame_data.length, frame_data]

/-- A conformance reader for the video wire format of the spec: decode
the 4-byte little-endian length prefix, then read exactly that many
payload bytes. -/
def readFrame (stream : List Nat) : Option (List Nat) :=
  match stream with
  | b0 :: b1 :: b2 :: b3 :: rest =>
    let len := b0 + 256 * b1 + 65536 * b2 + 16777216 * b3
    if len ≤ rest.length then some (rest.take len) else none
  | _ => none

/-! ## tcp_server.py : client registries

`handle_command_clients` and `handle_video_clients` run the same accept
logic over their respective registries (`command_clients` /
`video_clients` dicts keyed by socket); registry membership is modelled
as a list of distinct connection identifiers. -/

/-- `TCPServer.max_clients` from `tcp_server.py`. -/
def max_clients : Nat := 1

/-- The accept step shared by `handle_command_clients` and
`handle_video_clients`: a freshly accepted connection is closed
immediately (nothing is read from it) when the registry already holds
`max_clients` entries — returning the registry unchanged and `false` —
and is registered otherwise. -/
def acceptClient (clients : List Nat) (c : Nat) : List Nat × Bool :=
  if max_clients ≤ clients.length then (clients, false)
  else (clients ++ [c], true)

/-- Registry-mutating events of `tcp_server.py`: an accepted connection
(accept loops), the guarded `del` in `handle_client_commands` /
`send_video_data` teardown, and `stop_server`'s `clear()`. -/
inductive RegEvent where
  | accept (c : Nat)
  | remove (c : Nat)
  | clear
  deriving Repr, DecidableEq

/-- One registry transition. -/
def regStep (clients : List Nat) : RegEvent → List Nat
  | .accept c => (acceptClient clients c).1
  | .remove c => clients.filter (fun x => x ≠ c)
  | .clear => []

/-- The registry contents after a sequence of events, starting from the
empty registry a server begins with. -/
def regRun (events : List RegEvent) : List Nat :=
  events.foldl regStep []

/-! ## camera.py : frame buffer -/

namespace Camera

/-- Observable state of `Camera` plus its `StreamingOutput`:
`is_streaming`, the latest `frame` slot, and `waiters`, the number of
callers currently blocked in `condition.wait()` inside `get_frame`. -/
structure CameraState where
  is_streaming : Bool
  frame : Option (List Nat)
  waiters : Nat
  deriving Repr, DecidableEq

/-- Outcome of entering `Camera.get_frame`. -/
inductive GetFrameResult where
  | immediate (r : Option (List Nat))
  | blocked
  deriving Repr, DecidableEq

/-- The non-blocking prefix of `Camera.get_frame` from `camera.py`:
when `is_streaming` is false it returns `None` immediately; otherwise
the caller takes the condition and blocks in `condition.wait()`,
becoming a waiter. -/
def get_frame_entry (s : CameraState) : CameraState × GetFrameResult :=
  if s.is_streaming = false then (s, .immediate none)
  else ({ s with waiters := s.waiters + 1 }, .blocked)

/-- `StreamingOutput.write` from `camera.py`: store the buffer in the
frame slot and `notify_all()`, waking every waiter. -/
def output_write (s : CameraState) (buf : List Nat) : CameraState :=
  { s with frame := some buf, waiters := 0 }

/-- `Camera.stop_streaming` from `camera.py`: stop the encoder and
clear `is_streaming`.  It performs no notify on the condition, so the
waiter count is untouched. -/
def stop_streaming (s : CameraState) : CameraState :=
  if s.is_streaming = false then s
  else { s with is_streaming := false }

end Camera

/-! ## Helper lemmas -/

/-- A response with a non-empty prefix is truthy in Python, so the
dispatcher's `if response:` guard sends it. -/
theorem response_ne_empty (pre m : String) (h : pre.data ≠ []) : (pre ++ m) ≠ "" := by
  obtain ⟨lp⟩ := pre
  obtain ⟨lm⟩ := m
  intro e
  have h2 := congrArg String.data e
  simp only [String.data] at h2 h
  exact h (List.append_eq_nil.mp h2).1

/-- Clamping is idempotent. -/
theorem _duty_range_idem (d : Int) : _duty_range (_duty_range d) = _duty_range d := by
  unfold _duty_range
  split <;> split <;> omega

/-- A parse failure of any token makes the whole comprehension raise. -/
theorem intParseAll_error_of_mem (args : List String) (t : String)
    (hmem : t ∈ args) (hbad : pyInt t = none) :
    ∃ m, intParseAll args = .error m := by
  induction args with
  | nil => cases hmem
  | cons hd tl ih =>
    rcases List.mem_cons.mp hmem with rfl | htl
    · exact ⟨"invalid literal for int() with base 10: \x27" ++ t ++ "\x27",
        by simp [intParseAll, hbad]⟩
    · match hhd : pyInt hd with
      | none => exact ⟨"invalid literal for int() with base 10: \x27" ++ hd ++ "\x27",
          by simp [intParseAll, hhd]⟩
      | some v =>
        obtain ⟨m, hm⟩ := ih htl
        exact ⟨m, by simp [intParseAll, hhd, hm]⟩

/-- One registry event preserves the capacity bound. -/
theorem regStep_length_le (s : List Nat) (e : RegEvent) (h : s.length ≤ max_clients) :
    (regStep s e).length ≤ max_clients := by
  cases e with
  | accept c =>
    simp only [regStep, acceptClient]
    split
    · exact h
    · next hc =>
      simp only [List.length_append, List.length_singleton, max_clients] at hc ⊢
      omega
  | remove c => exact le_trans (List.length_filter_le _ s) h
  | clear => simp [regStep, max_clients]

/-- Folding registry events from any state within capacity stays within
capacity. -/
theorem regFold_length_le (evs : List RegEvent) (init : List Nat)
    (h : init.length ≤ max_clients) :
    (evs.foldl regStep init).length ≤ max_clients := by
  induction evs generalizing init with
  | nil => exact h
  | cons e tl ih => exact ih (regStep init e) (regStep_length_le init e h)

/-! ## C7 : duty clamping -/

/-- C7: `_duty_range` returns 4095 above the range, -4095 below it, and
the input inside it; a MOTOR command whose 4 integer arguments include
out-of-range values is answered `OK#MOTOR` (not rejected) and every
PWM call is computed from the clamped values. -/
theorem duty_range_clamp_spec (st : CarState) (d a b c e : Int) (sa sb sc sd : String)
    (ha : pyInt sa = some a) (hb : pyInt sb = some b) (hc : pyInt sc = some c)
    (he : pyInt sd = some e) :
    (d > 4095 → _duty_range d = 4095) ∧
    (d < -4095 → _duty_range d = -4095) ∧
    (-4095 ≤ d → d ≤ 4095 → _duty_range d = d) ∧
    (handle_motor_command st [sa, sb, sc, sd]).2 = "OK#MOTOR" ∧
    (handle_motor_command st [sa, sb, sc, sd]).1.pwmCalls =
      st.pwmCalls ++ set_motor_speeds st.motorInitialized
        (_duty_range a) (_duty_range b) (_duty_range c) (_duty_range e) := by
  refine ⟨?_, ?_, ?_, ?_, ?_⟩
  · intro hgt
    simp [_duty_range, hgt]
  · intro hlt
    have h1 : ¬ d > 4095 := by omega
    simp [_duty_range, h1, hlt]
  · intro hge hle
    have h1 : ¬ d > 4095 := by omega
    have h2 : ¬ d < -4095 := by omega
    simp [_duty_range, h1, h2]
  · simp [handle_motor_command, intParseAll, ha, hb, hc, he]
  · simp [handle_motor_command, intParseAll, ha, hb, hc, he, invoke_set_motor_speeds,
      set_motor_speeds, _duty_range_idem]

/-- Witness for C7 at an out-of-range input. -/
theorem duty_range_clamp_witness :
    pyInt "5000" = some 5000 ∧
    (handle_motor_command initState ["5000", "-9000", "0", "100"]).2 = "OK#MOTOR" ∧
    (handle_motor_command initState ["5000", "-9000", "0", "100"]).1.pwmCalls =
      initState.pwmCalls ++ set_motor_speeds initState.motorInitialized
        (_duty_range 5000) (_duty_range (-9000)) (_duty_range 0) (_duty_range 100) :=
  ⟨by decide,
   (duty_range_clamp_spec initState 0 5000 (-9000) 0 100 "5000" "-9000" "0" "100"
      (by decide) (by decide) (by decide) (by decide)).2.2.2.1,
   (duty_range_clamp_spec initState 0 5000 (-9000) 0 100 "5000" "-9000" "0" "100"
      (by decide) (by decide) (by decide) (by decide)).2.2.2.2⟩

/-! ## C4 : video frame framing -/

/-- C4: for a payload of length below 2^32 the video channel performs
exactly two back-to-back writes, the 4-byte little-endian length prefix
then the payload, and a conformance reader recovers the payload
exactly. -/
theorem video_framing_roundtrip (P : List Nat) (h : P.length < 4294967296) :
    send_video_data_writes P = [le32 P.length, P] ∧
    readFrame (le32 P.length ++ P) = some P := by
  refine ⟨rfl, ?_⟩
  have hlen : P.length % 256 + 256 * (P.length / 256 % 256) + 65536 * (P.length / 65536 % 256) +
      16777216 * (P.length / 16777216 % 256) = P.length := by omega
  simp [le32, readFrame, hlen]

/-- Witness for C4 at payload lengths 0, 1 and 65536. -/
theorem video_framing_roundtrip_witness :
    ([] : List Nat).length < 4294967296 ∧
    readFrame (le32 ([] : List Nat).length ++ []) = some [] ∧
    readFrame (le32 ([37] : List Nat).length ++ [37]) = some [37] ∧
    readFrame (le32 (List.replicate 65536 200).length ++ List.replicate 65536 200) =
      some (List.replicate 65536 200) :=
  ⟨by decide, (video_framing_roundtrip [] (by decide)).2,
   (video_framing_roundtrip [37] (by decide)).2,
   (video_framing_roundtrip (List.replicate 65536 200)
      (by simp only [List.length_replicate]; decide)).2⟩

/-! ## C5 : client registry capacity -/

/-- C5: after any sequence of accept/remove/clear events the registry
holds at most `max_clients = 1` entries, and accepting while full
closes the new connection (nothing read from it) leaving the registry
exactly as it was. -/
theorem registry_capacity_spec (evs : List RegEvent) (c : Nat) :
    (regRun evs).length ≤ max_clients ∧
    (max_clients ≤ (regRun evs).length →
      acceptClient (regRun evs) c = (regRun evs, false)) := by
  refine ⟨?_, ?_⟩
  · simpa [regRun] using regFold_length_le evs [] (by simp [max_clients])
  · intro hfull
    simp [acceptClient, hfull]

/-- Witness for C5: a second accept is rejected without perturbing the
registered client. -/
theorem registry_capacity_witness :
    (regRun [RegEvent.accept 5, RegEvent.accept 7]).length ≤ max_clients ∧
    acceptClient (regRun [RegEvent.accept 5, RegEvent.accept 7]) 9 =
      (regRun [RegEvent.accept 5, RegEvent.accept 7], false) :=
  ⟨(registry_capacity_spec [RegEvent.accept 5, RegEvent.accept 7] 9).1,
   (registry_capacity_spec [RegEvent.accept 5, RegEvent.accept 7] 9).2 (by decide)⟩

/-! ## C9 : frame read when inactive / on stop -/

/-- C9 (code bug): `get_frame` with streaming inactive does return
`None` immediately, but `stop_streaming` performs no notify on the
condition: a caller blocked in `condition.wait()` keeps waiting after
the stream stops — only a further `StreamingOutput.write` (a new frame)
wakes it.  Evaluated at the failing input: one blocked waiter, then
`stop_streaming`. -/
theorem camera_stop_leaves_waiter_blocked :
    Camera.get_frame_entry ⟨false, none, 0⟩ = (⟨false, none, 0⟩, .immediate none) ∧
    (Camera.get_frame_entry ⟨true, none, 0⟩).1.waiters = 1 ∧
    (Camera.stop_streaming (Camera.get_frame_entry ⟨true, none, 0⟩).1).waiters = 1 ∧
    Camera.output_write (Camera.get_frame_entry ⟨true, none, 0⟩).1 [1] =
      ⟨true, some [1], 0⟩ := by decide

/-! ## C1 : valid MOTOR commands -/

/-- C1: a dispatched MOTOR command whose 4 argument tokens parse as
integers in `[-4095, 4095]` is answered `OK#MOTOR` and
`set_motor_speeds` receives exactly those 4 values in order. -/
theorem motor_valid_dispatch (st : CarState) (text p0 sa sb sc sd : String) (a b c d : Int)
    (hsplit : pySplitHash (pyStrip text) = [p0, sa, sb, sc, sd])
    (hp0 : pyUpper p0 = "MOTOR")
    (ha : pyInt sa = some a) (hb : pyInt sb = some b)
    (hc : pyInt sc = some c) (hd : pyInt sd = some d)
    (hra : -4095 ≤ a ∧ a ≤ 4095) (hrb : -4095 ≤ b ∧ b ≤ 4095)
    (hrc : -4095 ≤ c ∧ c ≤ 4095) (hrd : -4095 ≤ d ∧ d ≤ 4095) :
    (parse_and_execute_command st text).2 = some "OK#MOTOR" ∧
    (parse_and_execute_command st text).1.motorCalls = st.motorCalls ++ [(a, b, c, d)] := by
  constructor <;>
    simp [parse_and_execute_command, sourceVerb, hsplit, hp0, handle_motor_command,
      intParseAll, ha, hb, hc, hd, invoke_set_motor_speeds]

/-- Witness for C1. -/
theorem motor_valid_dispatch_witness :
    (parse_and_execute_command initState "MOTOR#100#-200#0#4095").2 = some "OK#MOTOR" ∧
    (parse_and_execute_command initState "MOTOR#100#-200#0#4095").1.motorCalls =
      initState.motorCalls ++ [(100, -200, 0, 4095)] :=
  motor_valid_dispatch initState "MOTOR#100#-200#0#4095" "MOTOR" "100" "-200" "0" "4095"
    100 (-200) 0 4095 (by decide) (by decide) (by decide) (by decide) (by decide) (by decide)
    (by decide) (by decide) (by decide) (by decide)

/-! ## C2 : invalid MOTOR commands -/

/-- C2: a dispatched MOTOR command with an argument count other than 4,
or with any token that does not parse as an integer, is answered with a
string beginning `ERROR#` and the state — in particular the
`set_motor_speeds` call log — is untouched. -/
theorem motor_invalid_dispatch (st : CarState) (text p0 : String) (args : List String)
    (hsplit : pySplitHash (pyStrip text) = p0 :: args)
    (hp0 : pyUpper p0 = "MOTOR")
    (h : args.length ≠ 4 ∨ ∃ t, t ∈ args ∧ pyInt t = none) :
    ∃ m, parse_and_execute_command st text = (st, some ("ERROR#" ++ m)) := by
  by_cases hlen : args.length = 4
  · rcases h with hbad | ⟨t, hmem, hbad⟩
    · exact absurd hlen hbad
    · obtain ⟨m, hm⟩ := intParseAll_error_of_mem args t hmem hbad
      refine ⟨m, ?_⟩
      simp [parse_and_execute_command, sourceVerb, hsplit, hp0, handle_motor_command, hlen,
        hm, response_ne_empty "ERROR#" m (by decide)]
  · refine ⟨"Invalid motor command format. Expected 4 speed values.", ?_⟩
    simp [parse_and_execute_command, sourceVerb, hsplit, hp0, handle_motor_command, hlen]

/-- Witness for C2: wrong arity. -/
theorem motor_invalid_dispatch_witness :
    ∃ m, parse_and_execute_command initState "MOTOR#1#2" =
      (initState, some ("ERROR#" ++ m)) :=
  motor_invalid_dispatch initState "MOTOR#1#2" "MOTOR" ["1", "2"] (by decide) (by decide)
    (Or.inl (by decide))

/-! ## C3 : STREAM handler -/

/-- C3 counterexample: the unknown-token error echoes the token
uppercased, not as it was given: for token `foo` the response is
`ERROR#Unknown streaming command: FOO`, not `...: foo`. -/
theorem stream_unknown_token_cex :
    (handle_stream_command initState ["foo"]).2 = "ERROR#Unknown streaming command: FOO" ∧
    (handle_stream_command initState ["foo"]).2 ≠ "ERROR#Unknown streaming command: foo" := by
  decide

/-- C3 (amended): STREAM with first argument uppercasing to `START`
starts streaming and answers `OK#STREAM#STARTED` when streaming was
off, and leaves the state untouched (no second broadcast thread)
answering `OK#STREAM#ALREADY_RUNNING` when it was on; `STOP` mirrors
this with `OK#STREAM#STOPPED` / `OK#STREAM#NOT_RUNNING`; any other
token is answered `ERROR#Unknown streaming command: <token uppercased>`;
no arguments yields an `ERROR#` message. -/
theorem handle_stream_spec (st : CarState) (a0 : String) (rest : List String) :
    (handle_stream_command st [] = (st, "ERROR#Missing streaming command (START/STOP)")) ∧
    (pyUpper a0 = "START" → st.streaming = false →
      handle_stream_command st (a0 :: rest) =
        ({ st with streaming := true, videoThreadsStarted := st.videoThreadsStarted + 1 },
          "OK#STREAM#STARTED")) ∧
    (pyUpper a0 = "START" → st.streaming = true →
      handle_stream_command st (a0 :: rest) = (st, "OK#STREAM#ALREADY_RUNNING")) ∧
    (pyUpper a0 = "STOP" → st.streaming = true →
      handle_stream_command st (a0 :: rest) =
        ({ st with streaming := false }, "OK#STREAM#STOPPED")) ∧
    (pyUpper a0 = "STOP" → st.streaming = false →
      handle_stream_command st (a0 :: rest) = (st, "OK#STREAM#NOT_RUNNING")) ∧
    (pyUpper a0 ≠ "START" → pyUpper a0 ≠ "STOP" →
      handle_stream_command st (a0 :: rest) =
        (st, "ERROR#Unknown streaming command: " ++ pyUpper a0)) := by
  refine ⟨?_, ?_, ?_, ?_, ?_, ?_⟩
  · simp [handle_stream_command]
  · intro hA hs
    simp [handle_stream_command, hA, hs, start_video_streaming]
  · intro hA hs
    simp [handle_stream_command, hA, hs]
  · intro hA hs
    simp [handle_stream_command, hA, hs, stop_video_streaming]
  · intro hA hs
    simp [handle_stream_command, hA, hs]
  · intro h1 h2
    simp [handle_stream_command, h1, h2]

/-- Witness for C3: START when idle, then START when already
streaming. -/
theorem handle_stream_witness :
    (handle_stream_command initState ["start"] =
      ({ initState with streaming := true, videoThreadsStarted := initState.videoThreadsStarted + 1 },
        "OK#STREAM#STARTED")) ∧
    (handle_stream_command { initState with streaming := true } ["START"] =
      ({ initState with streaming := true }, "OK#STREAM#ALREADY_RUNNING")) :=
  ⟨(handle_stream_spec initState "start" []).2.1 (by decide) (by decide),
   (handle_stream_spec { initState with streaming := true } "START" []).2.2.1
      (by decide) (by decide)⟩

/-! ## C6 : verb parsing and unknown verbs -/

/-- C6 counterexample: the dispatcher strips whitespace before
splitting, so its verb differs from the claim's split-then-uppercase
verb: for the command text `" stop"` the claim's verb `\x22 STOP\x22` is
outside the table and would demand `ERROR#Unknown command:  STOP` with
no handler run, yet the dispatcher answers `OK#STOP`, having run the
STOP handler. -/
theorem unknown_verb_strip_cex :
    specVerb " stop" = " STOP" ∧
    sourceVerb " stop" = "STOP" ∧
    specVerb " stop" ∉ (["MOTOR", "STOP", "STREAM", "STATUS"] : List String) ∧
    (parse_and_execute_command initState " stop").2 = some "OK#STOP" := by
  decide

/-- C6 (amended): the parser strips surrounding whitespace, splits on
`'#'` and uppercases the first token to obtain the verb; a verb outside
the fixed table `{MOTOR, STOP, STREAM, STATUS}` is answered
`ERROR#Unknown command: <verb>` with the state untouched — no handler
runs. -/
theorem unknown_verb_dispatch (st : CarState) (text : String)
    (h : sourceVerb text ∉ (["MOTOR", "STOP", "STREAM", "STATUS"] : List String)) :
    parse_and_execute_command st text =
      (st, some ("ERROR#Unknown command: " ++ sourceVerb text)) := by
  have h1 : sourceVerb text ≠ "MOTOR" := fun e => h (by rw [e]; decide)
  have h2 : sourceVerb text ≠ "STOP" := fun e => h (by rw [e]; decide)
  have h3 : sourceVerb text ≠ "STREAM" := fun e => h (by rw [e]; decide)
  have h4 : sourceVerb text ≠ "STATUS" := fun e => h (by rw [e]; decide)
  simp [parse_and_execute_command, h1, h2, h3, h4]

/-- Witness for C6 (amended) at the verb `FLY`. -/
theorem unknown_verb_dispatch_witness :
    parse_and_execute_command initState "fly#1" =
      (initState, some ("ERROR#Unknown command: " ++ sourceVerb "fly#1")) :=
  unknown_verb_dispatch initState "fly#1" (by decide)

/-! ## C8 : STATUS command -/

/-- C8: a dispatched STATUS command is answered `STATUS#` followed by
the JSON object with exactly the four boolean fields reflecting the
current state; with the server running, streaming off and no clients
the payload is the concrete object of the claim. -/
theorem status_dispatch_spec (st : CarState) (text : String)
    (hv : sourceVerb text = "STATUS") :
    parse_and_execute_command st text =
      (st, some ("STATUS#" ++
        statusJson st.running st.streaming st.videoClients st.commandClients)) ∧
    (st.running = true → st.streaming = false → st.videoClients = false →
      st.commandClients = false →
      (parse_and_execute_command st text).2 = some
        "STATUS#\x7b\"running\": true, \"streaming\": false, \"video_clients\": false, \"command_clients\": false\x7d") := by
  have h1 : sourceVerb text ≠ "MOTOR" := by rw [hv]; decide
  have h2 : sourceVerb text ≠ "STOP" := by rw [hv]; decide
  have h3 : sourceVerb text ≠ "STREAM" := by rw [hv]; decide
  have hne := response_ne_empty "STATUS#"
    (statusJson st.running st.streaming st.videoClients st.commandClients) (by decide)
  have e1 : parse_and_execute_command st text =
      (st, some ("STATUS#" ++
        statusJson st.running st.streaming st.videoClients st.commandClients)) := by
    simp [parse_and_execute_command, h1, h2, h3, hv, handle_status_command, hne]
  refine ⟨e1, ?_⟩
  intro hr hs hvc hcc
  rw [e1, hr, hs, hvc, hcc]
  rfl

/-- Witness for C8 right after startup. -/
theorem status_dispatch_witness :
    (parse_and_execute_command initState "STATUS").2 = some
      "STATUS#\x7b\"running\": true, \"streaming\": false, \"video_clients\": false, \"command_clients\": false\x7d" :=
  (status_dispatch_spec initState "STATUS" (by decide)).2 rfl rfl rfl rfl

/-! ## C10 : degraded motor mode -/

/-- C10: with the motor controller uninitialized, a valid MOTOR command
and a STOP command are still answered `OK#MOTOR` / `OK#STOP`, while
`set_motor_speeds` returns before any PWM call — the success response
does not reveal whether the hardware was driven. -/
theorem degraded_mode_dispatch (st : CarState) (text1 text2 p0 sa sb sc sd : String)
    (a b c d : Int)
    (hinit : st.motorInitialized = false)
    (hsplit : pySplitHash (pyStrip text1) = [p0, sa, sb, sc, sd])
    (hp0 : pyUpper p0 = "MOTOR")
    (ha : pyInt sa = some a) (hb : pyInt sb = some b)
    (hc : pyInt sc = some c) (hd : pyInt sd = some d)
    (hra : -4095 ≤ a ∧ a ≤ 4095) (hrb : -4095 ≤ b ∧ b ≤ 4095)
    (hrc : -4095 ≤ c ∧ c ≤ 4095) (hrd : -4095 ≤ d ∧ d ≤ 4095)
    (hstop : sourceVerb text2 = "STOP") :
    (parse_and_execute_command st text1).2 = some "OK#MOTOR" ∧
    (parse_and_execute_command st text1).1.pwmCalls = st.pwmCalls ∧
    (parse_and_execute_command st text2).2 = some "OK#STOP" ∧
    (parse_and_execute_command st text2).1.pwmCalls = st.pwmCalls := by
  have h1 : sourceVerb text2 ≠ "MOTOR" := by rw [hstop]; decide
  refine ⟨?_, ?_, ?_, ?_⟩
  · simp [parse_and_execute_command, sourceVerb, hsplit, hp0, handle_motor_command,
      intParseAll, ha, hb, hc, hd, invoke_set_motor_speeds]
  · simp [parse_and_execute_command, sourceVerb, hsplit, hp0, handle_motor_command,
      intParseAll, ha, hb, hc, hd, invoke_set_motor_speeds, set_motor_speeds, hinit]
  · simp [parse_and_execute_command, h1, hstop, handle_stop_command, invoke_set_motor_speeds]
  · simp [parse_and_execute_command, h1, hstop, handle_stop_command, invoke_set_motor_speeds,
      set_motor_speeds, hinit]

/-- Witness for C10 with an uninitialized motor controller. -/
theorem degraded_mode_dispatch_witness :
    (parse_and_execute_command { initState with motorInitialized := false }
        "MOTOR#1#2#3#4").2 = some "OK#MOTOR" ∧
    (parse_and_execute_command { initState with motorInitialized := false }
        "STOP").2 = some "OK#STOP" :=
  ⟨(degraded_mode_dispatch { initState with motorInitialized := false } "MOTOR#1#2#3#4" "STOP"
      "MOTOR" "1" "2" "3" "4" 1 2 3 4 rfl (by decide) (by decide) (by decide) (by decide)
      (by decide) (by decide) (by decide) (by decide) (by decide) (by decide) (by decide)).1,
   (degraded_mode_dispatch { initState with motorInitialized := false } "MOTOR#1#2#3#4" "STOP"
      "MOTOR" "1" "2" "3" "4" 1 2 3 4 rfl (by decide) (by decide) (by decide) (by decide)
      (by decide) (by decide) (by decide) (by decide) (by decide) (by decide) (by decide)).2.2.1⟩
